import Mathlib

/-!
Verification of the OpportunityMailer core: a shallow embedding of the
request validator, the template engine, the dispatch handler
(src/lambda/email_sender.py), the template store
(src/templates/template_manager.py) and the email utilities
(src/utils/email_utils.py).  Python strings are embedded as `List Char`;
Python dicts that the code only reads by key become association lists or
option-typed records; the SES network boundary becomes an explicit
parameter giving the outcome of each provider call.
-/

/-- A character other than an opening or closing curly brace,
the class `[^{}]` of the unresolved-placeholder scan. -/
def notBrace (c : Char) : Bool := c != '{' && c != '}'

/-- Every character of the string is outside `{` and `}`. -/
def braceFree (s : List Char) : Bool := s.all notBrace

/-- The word-character class `[A-Za-z0-9_]` of placeholder names. -/
def pyWordChar (c : Char) : Bool := c.isAlpha || c.isDigit || c == '_'

/-- Python `s.replace(a :: t, new)`: scan left to right, replacing each
non-overlapping occurrence of the pattern.  The fuel argument only makes
the recursion structural; any fuel at least `s.length` gives the replace
semantics. -/
def pyReplaceFuel (a : Char) (t new : List Char) : Nat → List Char → List Char
  | 0, s => s
  | _ + 1, [] => []
  | fuel + 1, c :: rest =>
    if c == a && t.isPrefixOf rest then new ++ pyReplaceFuel a t new fuel (rest.drop t.length)
    else c :: pyReplaceFuel a t new fuel rest

/-- Python `s.replace(old, new)` for a non-empty pattern (all patterns in
this code have the shape `"{" + key + "}"`, hence are non-empty). -/
def pyReplace (s old new : List Char) : List Char :=
  match old with
  | [] => s
  | a :: t => pyReplaceFuel a t new s.length s

/-- The value types a `template_data` mapping can carry (string, number,
boolean), as used by `personalize_content` and `get_template_content`. -/
inductive PyVal
  | str : List Char → PyVal
  | int : Int → PyVal
  | bool : Bool → PyVal
deriving DecidableEq

/-- Python `str(value)` on a template-data value: strings unchanged,
integers in decimal, `True` / `False` for booleans. -/
def pyStr : PyVal → List Char
  | PyVal.str s => s
  | PyVal.int n => (toString n).data
  | PyVal.bool b => if b then ("True").data else ("False").data

/-- `email_utils.personalize_content`: for each `(key, value)` of the data
mapping, in insertion order, replace every occurrence of `"{" + key + "}"`
with `str(value)`.  The remaining-placeholder scan only logs a warning and
does not change the returned string, so it is modelled separately by
`findTokens`. -/
def personalize_content (template : List Char) (data : List (List Char × PyVal)) : List Char :=
  data.foldl (fun acc kv => pyReplace acc ('{' :: (kv.1 ++ [('}')])) (pyStr kv.2)) template

/-- Scanner for `re.findall` over patterns of the form
brace, a non-empty run of characters of class `p`, brace: the state holds
the (reversed) run read since the last unmatched `{`. -/
def scanTokensAux (p : Char → Bool) : Option (List Char) → List Char → List (List Char)
  | _, [] => []
  | st, c :: rest =>
    if c == '{' then scanTokensAux p (some []) rest
    else if c == '}' then
      match st with
      | some acc =>
        if acc.isEmpty then scanTokensAux p none rest
        else acc.reverse :: scanTokensAux p none rest
      | none => scanTokensAux p none rest
    else
      match st with
      | some acc => if p c then scanTokensAux p (some (c :: acc)) rest else scanTokensAux p none rest
      | none => scanTokensAux p none rest

/-- `re.findall(r"{([^\x7b\x7d]+)}", s)` of `personalize_content`: the
contents of every maximal brace-delimited brace-free token, left to
right. -/
def findTokens (s : List Char) : List (List Char) := scanTokensAux notBrace none s

/-- The brace-delimited tokens of `s` whose contents match `[A-Za-z0-9_]+`,
the placeholder-name class; stated claims quantify over these. -/
def specWordTokens (s : List Char) : List (List Char) := scanTokensAux pyWordChar none s

/-- A piece of template text: either literal text or a placeholder token
`{name}`.  `flattenSegs` recovers the concrete string. -/
inductive Seg
  | lit : List Char → Seg
  | tok : List Char → Seg
deriving DecidableEq

/-- Concatenate segments back into the template string, each token `n`
contributing `"{" ++ n ++ "}"`. -/
def flattenSegs : List Seg → List Char
  | [] => []
  | Seg.lit s :: rest => s ++ flattenSegs rest
  | Seg.tok n :: rest => ('{' :: (n ++ [('}')])) ++ flattenSegs rest

/-- Well-formed segment: literal text carries no braces; a token name is
non-empty and brace-free. -/
def segWF : Seg → Bool
  | Seg.lit s => braceFree s
  | Seg.tok n => braceFree n && !n.isEmpty

/-- All segments well formed. -/
def wfSegs (segs : List Seg) : Bool := segs.all segWF

/-- Effect of one `replace` pass for key `k` and replacement `v` on a
segment: tokens named `k` become the literal `v`; everything else is
untouched. -/
def substSeg (k : List Char) (v : List Char) : Seg → Seg
  | Seg.lit s => Seg.lit s
  | Seg.tok n => if n = k then Seg.lit v else Seg.tok n

/-- Effect of a whole `personalize_content` call on a segment: a token
named by some key of the data map becomes the literal `str(value)` of the
first such key; other segments are untouched. -/
def renderSeg (data : List (List Char × PyVal)) : Seg → Seg
  | Seg.lit s => Seg.lit s
  | Seg.tok n =>
    match data.lookup n with
    | some v => Seg.lit (pyStr v)
    | none => Seg.tok n

/-- Local-part character class `[a-zA-Z0-9._%+-]` of
`email_utils.validate_email`. -/
def localChar (c : Char) : Bool :=
  c.isAlpha || c.isDigit || c == '.' || c == '_' || c == '%' || c == '+' || c == '-'

/-- Domain character class `[a-zA-Z0-9.-]` of
`email_utils.validate_email`. -/
def domainChar (c : Char) : Bool := c.isAlpha || c.isDigit || c == '.' || c == '-'

/-- `email_utils.validate_email`: matches
`^[a-zA-Z0-9._%+-]+@[a-zA-Z0-9.-]+\.[a-zA-Z]{2,}$`.  The TLD must be
all-alphabetic up to the end of the string, so the separating dot of any
match is the last dot; the matcher therefore splits at the maximal
alphabetic suffix. -/
def validate_email (s : List Char) : Bool :=
  let l := s.takeWhile localChar
  match s.drop l.length with
  | '@' :: r =>
    let t := (r.reverse.takeWhile (fun c => c.isAlpha)).reverse
    let front := r.take (r.length - t.length)
    !l.isEmpty && decide (2 ≤ t.length) &&
      (match front.getLast? with
       | some '.' =>
         !(front.take (front.length - 1)).isEmpty &&
           (front.take (front.length - 1)).all domainChar
       | _ => false)
  | _ => false

/-- The parsed JSON body of a dispatch request, restricted to the fields
`lambda_handler` reads; `none` models an absent key. -/
structure RawBody where
  recipient_email : Option (List Char)
  subject : Option (List Char)
  template_name : Option (List Char)
  template_data : Option (List (List Char × PyVal))
  sender_email : Option (List Char)
  cc_emails : Option (List (List Char))
  reply_to_emails : Option (List (List Char))
deriving DecidableEq

/-- `required_fields` of `validate_request`. -/
def required_fields : List (List Char) :=
  [("recipient_email").data, ("subject").data, ("template_name").data]

/-- `field not in body` for the fields `validate_request` checks. -/
def fieldAbsent (body : RawBody) : List Char → Bool :=
  fun f =>
    if f = ("recipient_email").data then body.recipient_email.isNone
    else if f = ("subject").data then body.subject.isNone
    else if f = ("template_name").data then body.template_name.isNone
    else false

/-- `[field for field in required_fields if field not in body]`. -/
def missingRequestFields (body : RawBody) : List (List Char) :=
  required_fields.filter (fieldAbsent body)

/-- Python `", ".join(xs)`. -/
def joinComma (xs : List (List Char)) : List Char := List.intercalate ((", ").data) xs

/-- `email_sender.validate_request`: raises
`ValueError("Missing required fields: ...")` when any required field is
absent, listing them all; otherwise returns the body. -/
def validate_request (body : RawBody) : Except (List Char) RawBody :=
  if (missingRequestFields body).isEmpty then Except.ok body
  else Except.error ((("Missing required fields: ").data) ++ joinComma (missingRequestFields body))

/-- A stored template record: the JSON document fields the manager reads,
`none` modelling an absent key. -/
structure TemplateDict where
  name : Option (List Char)
  subject : Option (List Char)
  description : Option (List Char)
  html_content : Option (List Char)
deriving DecidableEq

/-- HTML body of the built-in job_application template in email_sender.get_template_content. -/
def jobApplicationSenderHtml : List Char := ("\n        <html>\n        <body>\n            <p>Dear {recruiter_name},</p>\n            \n            <p>I hope this email finds you well. My name is {sender_name}, and I came across the {position} \n            position at {company}. I\x27m very interested in this opportunity and believe my background in \n            {background} makes me a strong candidate.</p>\n            \n            <p>{custom_paragraph}</p>\n            \n            <p>I\x27ve attached my resume for your review. I would welcome the opportunity to discuss how \n            my skills and experience align with your team\x27s needs.</p>\n            \n            <p>Thank you for considering my application. I look forward to the possibility of speaking with you.</p>\n            \n            <p>Best regards,<br>\n            {sender_name}<br>\n            {sender_email}<br>\n            {sender_phone}</p>\n        </body>\n        </html>\n        ").data

/-- HTML body of the built-in follow_up template in email_sender.get_template_content. -/
def followUpSenderHtml : List Char := ("\n        <html>\n        <body>\n            <p>Dear {recruiter_name},</p>\n            \n            <p>I hope you\x27re doing well. I\x27m writing to follow up on my application for the {position} \n            position that I submitted on {application_date}.</p>\n            \n            <p>I remain very interested in the opportunity to join {company} and contribute to your team. \n            {custom_paragraph}</p>\n            \n            <p>If you need any additional information from me, please don\x27t hesitate to ask.</p>\n            \n            <p>Thank you for your time and consideration.</p>\n            \n            <p>Best regards,<br>\n            {sender_name}<br>\n            {sender_email}<br>\n            {sender_phone}</p>\n        </body>\n        </html>\n        ").data

/-- The job_application entry of TemplateManager.default_templates. -/
def jobApplicationDefault : TemplateDict :=
  { name := some (("job_application").data),
    subject := some (("Application for {position} position at {company}").data),
    description := some (("Initial job application email to a recruiter or hiring manager").data),
    html_content := some (("\n                <html>\n                <body>\n                    <p>Dear {recruiter_name},</p>\n                    \n                    <p>I hope this email finds you well. My name is {sender_name}, and I came across the {position} \n                    position at {company}. I\x27m very interested in this opportunity and believe my background in \n                    {background} makes me a strong candidate.</p>\n                    \n                    <p>{custom_paragraph}</p>\n                    \n                    <p>I\x27ve attached my resume for your review. I would welcome the opportunity to discuss how \n                    my skills and experience align with your team\x27s needs.</p>\n                    \n                    <p>Thank you for considering my application. I look forward to the possibility of speaking with you.</p>\n                    \n                    <p>Best regards,<br>\n                    {sender_name}<br>\n                    {sender_email}<br>\n                    {sender_phone}</p>\n                </body>\n                </html>\n                ").data) }

/-- The follow_up entry of TemplateManager.default_templates. -/
def followUpDefault : TemplateDict :=
  { name := some (("follow_up").data),
    subject := some (("Following up on {position} application at {company}").data),
    description := some (("Follow-up email after submitting an application").data),
    html_content := some (("\n                <html>\n                <body>\n                    <p>Dear {recruiter_name},</p>\n                    \n                    <p>I hope you\x27re doing well. I\x27m writing to follow up on my application for the {position} \n                    position that I submitted on {application_date}.</p>\n                    \n                    <p>I remain very interested in the opportunity to join {company} and contribute to your team. \n                    {custom_paragraph}</p>\n                    \n                    <p>If you need any additional information from me, please don\x27t hesitate to ask.</p>\n                    \n                    <p>Thank you for your time and consideration.</p>\n                    \n                    <p>Best regards,<br>\n                    {sender_name}<br>\n                    {sender_email}<br>\n                    {sender_phone}</p>\n                </body>\n                </html>\n                ").data) }

/-- The thank_you entry of TemplateManager.default_templates. -/
def thankYouDefault : TemplateDict :=
  { name := some (("thank_you").data),
    subject := some (("Thank you for the interview - {position} position").data),
    description := some (("Thank you email after an interview").data),
    html_content := some (("\n                <html>\n                <body>\n                    <p>Dear {recruiter_name},</p>\n                    \n                    <p>Thank you for taking the time to interview me for the {position} position at {company} today. \n                    I appreciated the opportunity to learn more about the role and the team.</p>\n                    \n                    <p>{interview_highlights}</p>\n                    \n                    <p>Our conversation reinforced my enthusiasm for the position and my confidence that my skills in \n                    {skills} would enable me to make valuable contributions to your team.</p>\n                    \n                    <p>Thank you again for your consideration. I\x27m looking forward to hearing about the next steps \n                    in the process.</p>\n                    \n                    <p>Best regards,<br>\n                    {sender_name}<br>\n                    {sender_email}<br>\n                    {sender_phone}</p>\n                </body>\n                </html>\n                ").data) }

/-- The connection_request entry of TemplateManager.default_templates. -/
def connectionRequestDefault : TemplateDict :=
  { name := some (("connection_request").data),
    subject := some (("Connecting with a fellow {industry} professional").data),
    description := some (("Email to request a professional connection").data),
    html_content := some (("\n                <html>\n                <body>\n                    <p>Dear {recipient_name},</p>\n                    \n                    <p>I hope this email finds you well. My name is {sender_name}, and I {introduction_context}.</p>\n                    \n                    <p>I\x27m reaching out because {connection_reason}. Given your experience in {recipient_expertise}, \n                    I would greatly value the opportunity to connect with you.</p>\n                    \n                    <p>{specific_request}</p>\n                    \n                    <p>I understand you\x27re busy, and I appreciate any time you can spare. Thank you for considering \n                    my request.</p>\n                    \n                    <p>Best regards,<br>\n                    {sender_name}<br>\n                    {sender_email}<br>\n                    {sender_phone}</p>\n                </body>\n                </html>\n                ").data) }

/-- Built-in templates of TemplateManager, keyed by name, in declaration order. -/
def default_templates : List (List Char × TemplateDict) :=
  [((("job_application").data), jobApplicationDefault), ((("follow_up").data), followUpDefault), ((("thank_you").data), thankYouDefault), ((("connection_request").data), connectionRequestDefault)]

/-- The `templates` dict of `email_sender.get_template_content`, keyed by
template name, in declaration order. -/
def emailSenderTemplates : List (List Char × List Char) :=
  [((("job_application").data), jobApplicationSenderHtml),
   ((("follow_up").data), followUpSenderHtml)]

/-- `email_sender.get_template_content`: raises
`ValueError("Template '...' not found")` for an unknown name, otherwise
replaces each `{key}` of the data mapping by `str(value)` in insertion
order (the same replace loop as `personalize_content`). -/
def get_template_content (template_name : List Char) (template_data : List (List Char × PyVal)) :
    Except (List Char) (List Char) :=
  match emailSenderTemplates.lookup template_name with
  | none => Except.error ((("Template \x27").data) ++ template_name ++ (("\x27 not found").data))
  | some t =>
    Except.ok (template_data.foldl (fun acc kv => pyReplace acc ('{' :: (kv.1 ++ [('}')])) (pyStr kv.2)) t)

/-- `email_sender.send_email`: one `ses_client.send_email` call, whose
outcome the caller supplies as `ses` (indexed by call number); a
`ClientError` is logged and re-raised, so the call result is returned
as is.  There is no retry loop. -/
def send_email (ses : Nat → Except (List Char) (List Char)) : Except (List Char) (List Char) :=
  ses 0

/-- Body of the API Gateway response: `{message, messageId}` on success,
`{error, message}` on failure. -/
inductive RespBody
  | success : List Char → List Char → RespBody
  | failure : List Char → List Char → RespBody
deriving DecidableEq

/-- An API Gateway response together with the number of provider
(`ses_client.send_email`) calls the handler made. -/
structure HandlerOutput where
  statusCode : Nat
  body : RespBody
  providerCalls : Nat
deriving DecidableEq

/-- `email_sender.lambda_handler`: validate, fetch-and-personalize the
template, send.  A `ValueError` (from validation or template lookup) is
answered with 400 / `Validation error`; a `ClientError` from SES with
500 / `Email sending failed`; success with 200. -/
def lambda_handler (event : RawBody) (ses : Nat → Except (List Char) (List Char)) : HandlerOutput :=
  match validate_request event with
  | Except.error msg => ⟨400, RespBody.failure (("Validation error").data) msg, 0⟩
  | Except.ok rq =>
    match get_template_content (rq.template_name.getD []) (rq.template_data.getD []) with
    | Except.error msg => ⟨400, RespBody.failure (("Validation error").data) msg, 0⟩
    | Except.ok _html =>
      match send_email ses with
      | Except.error e => ⟨500, RespBody.failure (("Email sending failed").data) e, 1⟩
      | Except.ok mid => ⟨200, RespBody.success (("Email sent successfully").data) mid, 1⟩

/-- Default of `email.max_retries` in config.py (`MAX_RETRIES`, "3"). -/
def config_max_retries : Nat := 3

/-- Default of `email.retry_delay` in config.py (`RETRY_DELAY`, "5" seconds). -/
def config_retry_delay : Nat := 5

/-- `template_required_fields` checked by `TemplateManager.save_template`. -/
def template_required_fields : List (List Char) :=
  [("name").data, ("subject").data, ("html_content").data]

/-- `field not in template` for the fields `save_template` checks. -/
def templateFieldAbsent (t : TemplateDict) : List Char → Bool :=
  fun f =>
    if f = ("name").data then t.name.isNone
    else if f = ("subject").data then t.subject.isNone
    else if f = ("html_content").data then t.html_content.isNone
    else false

/-- `[field for field in required_fields if field not in template]`. -/
def missingTemplateFields (t : TemplateDict) : List (List Char) :=
  template_required_fields.filter (templateFieldAbsent t)

/-- The custom-template backend: one record per name; writing
`{name}.json` overwrites any record with the same name. -/
def upsertTemplate (store : List (List Char × TemplateDict)) (n : List Char) (t : TemplateDict) :
    List (List Char × TemplateDict) :=
  (n, t) :: store.filter (fun kv => kv.1 != n)

/-- `TemplateManager.save_template` (local storage): raises
`ValueError("Template missing required fields: ...")` when `name`,
`subject` or `html_content` is absent, otherwise writes the record keyed
by its name.  No check against `default_templates` is made. -/
def save_template (store : List (List Char × TemplateDict)) (t : TemplateDict) :
    Except (List Char) (List (List Char × TemplateDict)) :=
  if (missingTemplateFields t).isEmpty then Except.ok (upsertTemplate store (t.name.getD []) t)
  else
    Except.error ((("Template missing required fields: ").data) ++ joinComma (missingTemplateFields t))

/-- `TemplateManager.get_template` (local storage): `default_templates`
is consulted first and always wins; otherwise the custom store; otherwise
`ValueError("Template not found: ...")`. -/
def get_template (store : List (List Char × TemplateDict)) (template_name : List Char) :
    Except (List Char) TemplateDict :=
  match default_templates.lookup template_name with
  | some t => Except.ok t
  | none =>
    match store.lookup template_name with
    | some t => Except.ok t
    | none => Except.error ((("Template not found: ").data) ++ template_name)

deriving instance DecidableEq for Except

/-- Whether an `Except` result is a success. -/
def isOkE {ε α : Type} : Except ε α → Bool
  | Except.ok _ => true
  | Except.error _ => false

/-- Scenario body: otherwise-valid request whose `template_name` names no
existing template. -/
def unknownTemplateBody : RawBody :=
  { recipient_email := some (("a@b.com").data)
    subject := some (("Hi").data)
    template_name := some (("does_not_exist").data)
    template_data := none
    sender_email := none
    cc_emails := none
    reply_to_emails := none }

/-- Scenario body: request missing `recipient_email` only. -/
def missingRecipientBody : RawBody :=
  { recipient_email := none
    subject := some (("Test Subject").data)
    template_name := some (("job_application").data)
    template_data := none
    sender_email := none
    cc_emails := none
    reply_to_emails := none }

/-- Scenario body: valid request for a known template with no
template data. -/
def knownTemplateBody : RawBody :=
  { recipient_email := some (("a@b.com").data)
    subject := some (("Hi").data)
    template_name := some (("job_application").data)
    template_data := none
    sender_email := none
    cc_emails := none
    reply_to_emails := none }

/-- Scenario body: all required fields present but the recipient address
is not a well-formed email address. -/
def invalidEmailBody : RawBody :=
  { recipient_email := some (("not-an-email").data)
    subject := some (("Hi").data)
    template_name := some (("job_application").data)
    template_data := none
    sender_email := none
    cc_emails := none
    reply_to_emails := none }

/-- A provider whose every call fails with a retryable `ClientError`. -/
def sesAlwaysFails : Nat → Except (List Char) (List Char) :=
  fun _ => Except.error (("Throttling").data)

/-- A provider whose every call succeeds with a fixed message id. -/
def sesAlwaysOk : Nat → Except (List Char) (List Char) :=
  fun _ => Except.ok (("test-message-id").data)

/-- A custom template whose name collides with the built-in
`job_application`. -/
def shadowTemplate : TemplateDict :=
  { name := some (("job_application").data)
    subject := some (("s").data)
    description := none
    html_content := some (("h").data) }

/-- A template whose required fields are all present but whose `name` is
the empty string. -/
def emptyNameTemplate : TemplateDict :=
  { name := some []
    subject := some (("s").data)
    description := none
    html_content := some (("h").data) }

/-- A small well-formed template (segment form) used to instantiate the
render theorems. -/
def welcomeSegs : List Seg :=
  [Seg.lit (("Dear ").data), Seg.tok (("name").data), Seg.lit (("!").data)]

/-- Data covering every placeholder of `welcomeSegs`. -/
def welcomeData : List (List Char × PyVal) :=
  [((("name").data), PyVal.str (("Sam").data))]

theorem pyReplaceFuel_nil (a : Char) (t v : List Char) (f : Nat) :
    pyReplaceFuel a t v f [] = [] := by
  cases f <;> rfl

theorem pyReplaceFuel_skip (a : Char) (t v : List Char) :
    ∀ (s : List Char) (f : Nat) (rest : List Char), s.all (fun c => c != a) = true →
      s.length ≤ f →
      pyReplaceFuel a t v f (s ++ rest) = s ++ pyReplaceFuel a t v (f - s.length) rest
  | [], f, rest, _, _ => by simp
  | c :: s, f, rest, hs, hf => by
    simp only [List.all_cons, Bool.and_eq_true] at hs
    simp only [List.length_cons] at hf
    obtain ⟨f, rfl⟩ : ∃ g, f = g + 1 := ⟨f - 1, by omega⟩
    have hca : (c == a) = false := by
      simpa using hs.1
    have ih := pyReplaceFuel_skip a t v s f rest hs.2 (by omega)
    simp only [List.cons_append, pyReplaceFuel, hca, Bool.false_and, if_neg Bool.false_ne_true,
      List.append_eq, List.length_cons, Nat.succ_sub_succ]
    rw [ih]

theorem isPrefixOf_ne_token (k : List Char) :
    ∀ (n rest : List Char), braceFree k = true → braceFree n = true → k ≠ n →
      ((k ++ [('}')]).isPrefixOf (n ++ ('}' :: rest))) = false := by
  induction k with
  | nil =>
    intro n rest _ hn hne
    cases n with
    | nil => exact absurd rfl hne
    | cons b n =>
      simp only [braceFree, List.all_cons, Bool.and_eq_true, notBrace] at hn
      have : ('}' == b) = false := by
        have := hn.1.2
        simp only [bne_iff_ne, ne_eq] at this
        simp [bne, beq_iff_eq]
        exact fun h => this h.symm
      simp [List.isPrefixOf, this]
  | cons a k ih =>
    intro n rest hk hn hne
    simp only [braceFree, List.all_cons, Bool.and_eq_true, notBrace] at hk
    cases n with
    | nil =>
      have : (a == '}') = false := by simpa using hk.1.2
      simp [List.isPrefixOf, this]
    | cons b n =>
      simp only [braceFree, List.all_cons, Bool.and_eq_true, notBrace] at hn
      by_cases hab : a = b
      · subst hab
        have hkn : k ≠ n := fun h => hne (by rw [h])
        have := ih n rest (by simp [braceFree, hk.2]) (by simp [braceFree, hn.2]) hkn
        simp [List.isPrefixOf, this]
      · have : (a == b) = false := by simp [beq_iff_eq, hab]
        simp [List.isPrefixOf, this]

theorem isPrefixOf_append_right (l rest : List Char) : (l.isPrefixOf (l ++ rest)) = true := by
  induction l with
  | nil => simp
  | cons a l ih => simp [List.isPrefixOf_cons₂_self, ih]

theorem braceFree_all_ne_left {s : List Char} (h : braceFree s = true) :
    s.all (fun c => c != '{') = true := by
  simp only [braceFree, notBrace, List.all_eq_true, Bool.and_eq_true] at h ⊢
  exact fun c hc => (h c hc).1

theorem pyReplaceFuel_flatten (k v : List Char) (hk : k ≠ []) (hkbf : braceFree k = true) :
    ∀ (segs : List Seg) (f : Nat), wfSegs segs = true → (flattenSegs segs).length ≤ f →
      pyReplaceFuel '{' (k ++ [('}')]) v f (flattenSegs segs) =
        flattenSegs (segs.map (substSeg k v))
  | [], f, _, _ => by simp [flattenSegs, pyReplaceFuel_nil]
  | Seg.lit s :: segs, f, hwf, hf => by
    simp only [wfSegs, List.all_cons, Bool.and_eq_true, segWF] at hwf
    simp only [flattenSegs, List.length_append] at hf ⊢
    rw [pyReplaceFuel_skip _ _ _ s f _ (braceFree_all_ne_left hwf.1) (by omega)]
    rw [pyReplaceFuel_flatten k v hk hkbf segs (f - s.length) (by simp [wfSegs, hwf.2]) (by omega)]
  | Seg.tok n :: segs, f, hwf, hf => by
    simp only [wfSegs, List.all_cons, Bool.and_eq_true, segWF] at hwf
    have hnbf : braceFree n = true := hwf.1.1
    have hlen : n.length + 2 + (flattenSegs segs).length ≤ f := by
      simp only [flattenSegs, List.length_append, List.length_cons, List.length_append] at hf
      omega
    obtain ⟨f, rfl⟩ : ∃ g, f = g + 1 := ⟨f - 1, by omega⟩
    by_cases hkn : k = n
    · subst hkn
      have hshape : (flattenSegs (Seg.tok k :: segs) : List Char)
          = '{' :: ((k ++ [('}')]) ++ flattenSegs segs) := by
        simp [flattenSegs]
      have hcond : (('{' == '{') &&
          (k ++ [('}')]).isPrefixOf ((k ++ [('}')]) ++ flattenSegs segs)) = true := by
        simp [isPrefixOf_append_right]
      rw [hshape]
      simp only [pyReplaceFuel, hcond, if_pos rfl, List.drop_left]
      rw [pyReplaceFuel_flatten k v hk hkbf segs f (by simp [wfSegs, hwf.2]) (by omega)]
      simp [substSeg, flattenSegs]
    · have hshape : (flattenSegs (Seg.tok n :: segs) : List Char)
          = '{' :: (n ++ ('}' :: flattenSegs segs)) := by
        simp [flattenSegs]
      have hcond : (('{' == '{') &&
          (k ++ [('}')]).isPrefixOf (n ++ ('}' :: flattenSegs segs))) = false := by
        rw [isPrefixOf_ne_token k n (flattenSegs segs) hkbf hnbf hkn]
        simp
      rw [hshape]
      simp only [pyReplaceFuel, hcond, Bool.false_eq_true, if_false]
      rw [pyReplaceFuel_skip _ _ _ n f _ (braceFree_all_ne_left hnbf) (by omega)]
      obtain ⟨g, hg⟩ : ∃ g, f - n.length = g + 1 := ⟨f - n.length - 1, by omega⟩
      rw [hg]
      have hcond2 : (('}' == '{') &&
          (k ++ [('}')]).isPrefixOf (flattenSegs segs)) = false := by
        simp
      simp only [pyReplaceFuel, hcond2, Bool.false_eq_true, if_false]
      rw [pyReplaceFuel_flatten k v hk hkbf segs g (by simp [wfSegs, hwf.2]) (by omega)]
      have hsub : substSeg k v (Seg.tok n) = Seg.tok n := by
        simp only [substSeg]
        rw [if_neg (fun h => hkn h.symm)]
      simp [hsub, flattenSegs]

theorem pyReplace_flatten (segs : List Seg) (k v : List Char) (hk : k ≠ [])
    (hkbf : braceFree k = true) (hwf : wfSegs segs = true) :
    pyReplace (flattenSegs segs) ('{' :: (k ++ [('}')])) v = flattenSegs (segs.map (substSeg k v)) :=
  pyReplaceFuel_flatten k v hk hkbf segs (flattenSegs segs).length hwf (Nat.le_refl _)

theorem wfSegs_map_substSeg {segs : List Seg} (k : List Char) {v : List Char}
    (hwf : wfSegs segs = true) (hv : braceFree v = true) :
    wfSegs (segs.map (substSeg k v)) = true := by
  simp only [wfSegs, List.all_map, List.all_eq_true] at hwf ⊢
  intro s hs
  match s with
  | Seg.lit l => simpa [substSeg] using hwf _ hs
  | Seg.tok n =>
    simp only [Function.comp_apply, substSeg]
    by_cases h : n = k
    · simp [h, segWF, hv]
    · simpa [h, segWF] using hwf _ hs

theorem personalize_content_flatten :
    ∀ (data : List (List Char × PyVal)) (segs : List Seg), wfSegs segs = true →
      (data.all fun kv => (braceFree kv.1 && !kv.1.isEmpty) && braceFree (pyStr kv.2)) = true →
      personalize_content (flattenSegs segs) data =
        flattenSegs (data.foldl (fun sg kv => sg.map (substSeg kv.1 (pyStr kv.2))) segs)
  | [], segs, _, _ => rfl
  | (key, v) :: data, segs, hwf, hd => by
    simp only [List.all_cons, Bool.and_eq_true, Bool.not_eq_true',
      List.isEmpty_eq_false_iff_exists_mem] at hd
    have hkne : key ≠ [] := by
      rcases hd.1.1.2 with ⟨x, hx⟩
      exact fun h => by simp [h] at hx
    have step := pyReplace_flatten segs key (pyStr v) hkne hd.1.1.1 hwf
    show personalize_content
        (pyReplace (flattenSegs segs) ('{' :: (key ++ [('}')])) (pyStr v)) data = _
    rw [step]
    rw [personalize_content_flatten data (segs.map (substSeg key (pyStr v)))
      (wfSegs_map_substSeg key hwf hd.1.2)
      (by simp only [List.all_eq_true] at hd ⊢; exact fun kv hkv => hd.2 kv hkv)]
    rfl

theorem renderSeg_nil (s : Seg) : renderSeg [] s = s := by
  cases s <;> simp [renderSeg]

theorem renderSeg_substSeg (key : List Char) (v : PyVal) (data : List (List Char × PyVal)) (s : Seg) :
    renderSeg data (substSeg key (pyStr v) s) = renderSeg ((key, v) :: data) s := by
  cases s with
  | lit l => simp [renderSeg, substSeg]
  | tok n =>
    by_cases h : n = key
    · simp [renderSeg, substSeg, h, List.lookup_cons]
    · have hb : (n == key) = false := by simpa using h
      simp [renderSeg, substSeg, if_neg h, List.lookup_cons, hb]

theorem foldl_substSeg_eq_map_render :
    ∀ (data : List (List Char × PyVal)) (segs : List Seg),
      data.foldl (fun sg kv => sg.map (substSeg kv.1 (pyStr kv.2))) segs =
        segs.map (renderSeg data)
  | [], segs => by
    simp only [List.foldl_nil]
    induction segs with
    | nil => rfl
    | cons s segs ih =>
      simp only [List.map_cons, renderSeg_nil]
      exact congrArg (List.cons s) ih
  | (key, v) :: data, segs => by
    simp only [List.foldl_cons]
    rw [foldl_substSeg_eq_map_render data (segs.map (substSeg key (pyStr v)))]
    rw [List.map_map]
    exact List.map_congr_left (fun s _ => renderSeg_substSeg key v data s)

theorem scanTokensAux_of_braceFree (p : Char → Bool) :
    ∀ (s : List Char), braceFree s = true → scanTokensAux p none s = []
  | [], _ => rfl
  | c :: s, h => by
    simp only [braceFree, List.all_cons, Bool.and_eq_true, notBrace] at h
    have h1 : (c == '{') = false := by simpa using h.1.1
    have h2 : (c == '}') = false := by simpa using h.1.2
    simp only [scanTokensAux, h1, h2, Bool.false_eq_true, if_false]
    exact scanTokensAux_of_braceFree p s (by simp [braceFree, h.2])

theorem braceFree_flattenSegs_of_lits :
    ∀ (segs : List Seg),
      (segs.all fun s => match s with | Seg.lit l => braceFree l | Seg.tok _ => false) = true →
      braceFree (flattenSegs segs) = true
  | [], _ => rfl
  | Seg.lit l :: segs, h => by
    simp only [List.all_cons, Bool.and_eq_true] at h
    simp only [flattenSegs, braceFree, List.all_append]
    have := braceFree_flattenSegs_of_lits segs h.2
    simp only [braceFree] at this h
    simp [this, h.1]
  | Seg.tok n :: segs, h => by
    simp at h

theorem braceFree_of_lookup {data : List (List Char × PyVal)} {n : List Char} {v : PyVal}
    (hd : (data.all fun kv => (braceFree kv.1 && !kv.1.isEmpty) && braceFree (pyStr kv.2)) = true)
    (hl : data.lookup n = some v) : braceFree (pyStr v) = true := by
  rcases List.lookup_eq_some_iff.1 hl with ⟨l1, l2, rfl, -⟩
  simp only [List.all_append, List.all_cons, Bool.and_eq_true] at hd
  exact hd.2.1.2

theorem isPrefixOf_self (l : List Char) : l.isPrefixOf l = true := by
  have h := isPrefixOf_append_right l []
  simp only [List.append_nil] at h
  exact h

theorem pyReplace_self (a : Char) (t v : List Char) : pyReplace (a :: t) (a :: t) v = v := by
  simp [pyReplace, pyReplaceFuel, isPrefixOf_self, List.drop_length, pyReplaceFuel_nil]

theorem fieldAbsent_recipient (b : RawBody) :
    fieldAbsent b (("recipient_email").data) = b.recipient_email.isNone := by
  simp [fieldAbsent]

theorem fieldAbsent_subject (b : RawBody) :
    fieldAbsent b (("subject").data) = b.subject.isNone := by
  simp only [fieldAbsent]
  rw [if_neg (by decide)]
  simp

theorem fieldAbsent_template_name (b : RawBody) :
    fieldAbsent b (("template_name").data) = b.template_name.isNone := by
  simp only [fieldAbsent]
  rw [if_neg (by decide), if_neg (by decide)]
  simp

theorem missingRequestFields_eq (b : RawBody) :
    missingRequestFields b =
      (if b.recipient_email.isNone then [(("recipient_email").data)] else []) ++
        ((if b.subject.isNone then [(("subject").data)] else []) ++
          (if b.template_name.isNone then [(("template_name").data)] else [])) := by
  simp only [missingRequestFields, required_fields]
  rw [List.filter_cons, List.filter_cons, List.filter_cons, List.filter_nil]
  rw [fieldAbsent_recipient, fieldAbsent_subject, fieldAbsent_template_name]
  cases b.recipient_email.isNone <;> cases b.subject.isNone <;> cases b.template_name.isNone <;> simp

theorem templateFieldAbsent_name (t : TemplateDict) :
    templateFieldAbsent t (("name").data) = t.name.isNone := by
  simp [templateFieldAbsent]

theorem templateFieldAbsent_subject (t : TemplateDict) :
    templateFieldAbsent t (("subject").data) = t.subject.isNone := by
  simp only [templateFieldAbsent]
  rw [if_neg (by decide)]
  simp

theorem templateFieldAbsent_html (t : TemplateDict) :
    templateFieldAbsent t (("html_content").data) = t.html_content.isNone := by
  simp only [templateFieldAbsent]
  rw [if_neg (by decide), if_neg (by decide)]
  simp

theorem missingTemplateFields_eq (t : TemplateDict) :
    missingTemplateFields t =
      (if t.name.isNone then [(("name").data)] else []) ++
        ((if t.subject.isNone then [(("subject").data)] else []) ++
          (if t.html_content.isNone then [(("html_content").data)] else [])) := by
  simp only [missingTemplateFields, template_required_fields]
  rw [List.filter_cons, List.filter_cons, List.filter_cons, List.filter_nil]
  rw [templateFieldAbsent_name, templateFieldAbsent_subject, templateFieldAbsent_html]
  cases t.name.isNone <;> cases t.subject.isNone <;> cases t.html_content.isNone <;> simp

/-- C10: rendering any template text with the empty data map returns the
text unchanged, whatever brace-delimited tokens it contains. -/
theorem render_empty_data_identity (t : List Char) : personalize_content t [] = t := rfl

/-- C8 counterexample: a boolean data value is substituted as Python
str(True) = "True", not as the claimed canonical "true". -/
theorem bool_value_renders_capitalised :
    personalize_content (("{a}").data) [((("a").data), PyVal.bool true)] = ("True").data ∧
      (("True").data : List Char) ≠ ("true").data := by
  decide

/-- C8 (amended): a data value occupying a whole-template placeholder is
substituted as its Python str() form: "True"/"False" for booleans and the
decimal form for integers. -/
theorem typed_values_render_as_python_str (k : List Char) (b : Bool) (n : Int) :
    personalize_content ('{' :: (k ++ [('}')])) [(k, PyVal.bool b)]
        = (if b then ("True").data else ("False").data) ∧
      personalize_content ('{' :: (k ++ [('}')])) [(k, PyVal.int n)] = (toString n).data := by
  constructor
  · show pyReplace ('{' :: (k ++ [('}')])) ('{' :: (k ++ [('}')])) (pyStr (PyVal.bool b)) = _
    rw [pyReplace_self]
    rfl
  · show pyReplace ('{' :: (k ++ [('}')])) ('{' :: (k ++ [('}')])) (pyStr (PyVal.int n)) = _
    rw [pyReplace_self]
    rfl

/-- C7 counterexample: with data inserted in the order a, b, the token
"{b}" introduced by substituting a's value is itself expanded in the same
render call, so substitution is not non-recursive as claimed. -/
theorem introduced_token_expanded_same_call :
    personalize_content (("{a}").data)
        [((("a").data), PyVal.str (("{b}").data)), ((("b").data), PyVal.str (("X").data))]
        = ("X").data ∧
      (("X").data : List Char) ≠ ("{b}").data := by
  decide

/-- C7 (amended): on a well-formed template (brace-free literal text
alternating with tokens whose names are non-empty and brace-free), with
brace-free keys and brace-free substituted values, rendering replaces each
original token by the str() value of its first matching key, verbatim and
exactly once, and leaves everything else unchanged. -/
theorem substitution_literal_per_token (segs : List Seg) (data : List (List Char × PyVal))
    (hwf : wfSegs segs = true)
    (hd : (data.all fun kv => (braceFree kv.1 && !kv.1.isEmpty) && braceFree (pyStr kv.2)) = true) :
    personalize_content (flattenSegs segs) data = flattenSegs (segs.map (renderSeg data)) := by
  rw [personalize_content_flatten data segs hwf hd, foldl_substSeg_eq_map_render]

/-- Witness for `substitution_literal_per_token` at a concrete template
and data map. -/
theorem substitution_literal_per_token_witness :
    wfSegs welcomeSegs = true ∧
      personalize_content (flattenSegs welcomeSegs) welcomeData =
        flattenSegs (welcomeSegs.map (renderSeg welcomeData)) :=
  ⟨by decide, substitution_literal_per_token welcomeSegs welcomeData (by decide) (by decide)⟩

/-- C6 counterexample: the template "{a+b}" contains no placeholder over
the claimed name class [A-Za-z0-9_]+, so with the empty data map every
such placeholder trivially has a key, yet the unresolved scan (class
[^\x7b\x7d]+) is non-empty. -/
theorem unresolved_scan_wider_than_word_class :
    specWordTokens (("{a+b}").data) = [] ∧
      findTokens (personalize_content (("{a+b}").data) []) = [(("a+b").data)] := by
  decide

/-- C6 (amended): on a well-formed template whose braces all delimit
tokens, with brace-free keys and values, if every token name has a key in
the data map then rendering leaves an empty unresolved-placeholder set. -/
theorem covered_tokens_leave_no_unresolved (segs : List Seg) (data : List (List Char × PyVal))
    (hwf : wfSegs segs = true)
    (hd : (data.all fun kv => (braceFree kv.1 && !kv.1.isEmpty) && braceFree (pyStr kv.2)) = true)
    (hcov : (segs.all fun s =>
        match s with
        | Seg.tok n => (data.lookup n).isSome
        | Seg.lit _ => true) = true) :
    findTokens (personalize_content (flattenSegs segs) data) = [] := by
  rw [personalize_content_flatten data segs hwf hd, foldl_substSeg_eq_map_render]
  apply scanTokensAux_of_braceFree
  apply braceFree_flattenSegs_of_lits
  simp only [wfSegs, List.all_map, List.all_eq_true] at hwf hcov ⊢
  intro s hs
  match s with
  | Seg.lit l => simpa [renderSeg] using hwf _ hs
  | Seg.tok n =>
    have hc := hcov _ hs
    simp only [Option.isSome_iff_exists] at hc
    rcases hc with ⟨v, hv⟩
    simp only [Function.comp_apply, renderSeg, hv]
    exact braceFree_of_lookup hd hv

/-- Witness for `covered_tokens_leave_no_unresolved` at a concrete
template and data map. -/
theorem covered_tokens_no_unresolved_witness :
    wfSegs welcomeSegs = true ∧
      findTokens (personalize_content (flattenSegs welcomeSegs) welcomeData) = [] :=
  ⟨by decide, covered_tokens_leave_no_unresolved welcomeSegs welcomeData
    (by decide) (by decide) (by decide)⟩

/-- C9: a request missing required fields is answered 400 with error
"Validation error" and a single message listing every missing field; a
field is listed exactly when it is one of the three required names and is
absent from the body. -/
theorem missing_fields_all_listed_400 (b : RawBody) (ses : Nat → Except (List Char) (List Char))
    (h : missingRequestFields b ≠ []) :
    lambda_handler b ses =
        ⟨400, RespBody.failure (("Validation error").data)
          ((("Missing required fields: ").data) ++ joinComma (missingRequestFields b)), 0⟩ ∧
      (((("recipient_email").data) ∈ missingRequestFields b ↔ b.recipient_email = none) ∧
        ((("subject").data) ∈ missingRequestFields b ↔ b.subject = none) ∧
        ((("template_name").data) ∈ missingRequestFields b ↔ b.template_name = none)) := by
  refine ⟨?_, ?_, ?_, ?_⟩
  · cases hm : missingRequestFields b with
    | nil => exact absurd hm h
    | cons x xs => simp [lambda_handler, validate_request, hm]
  · cases h1 : b.recipient_email <;>
      simp [missingRequestFields_eq, h1, (by decide : ¬(("recipient_email").data = ("subject").data)),
        (by decide : ¬(("recipient_email").data = ("template_name").data))]
  · cases h2 : b.subject <;>
      simp [missingRequestFields_eq, h2, (by decide : ¬(("subject").data = ("recipient_email").data)),
        (by decide : ¬(("subject").data = ("template_name").data))]
  · cases h3 : b.template_name <;>
      simp [missingRequestFields_eq, h3,
        (by decide : ¬(("template_name").data = ("recipient_email").data)),
        (by decide : ¬(("template_name").data = ("subject").data))]

/-- Witness for `missing_fields_all_listed_400`: a request missing only
`recipient_email` is answered 400 with the listing message. -/
theorem missing_recipient_scenario :
    missingRequestFields missingRecipientBody ≠ [] ∧
      lambda_handler missingRecipientBody sesAlwaysOk =
        ⟨400, RespBody.failure (("Validation error").data)
          ((("Missing required fields: ").data) ++
            joinComma (missingRequestFields missingRecipientBody)), 0⟩ :=
  ⟨by decide, (missing_fields_all_listed_400 missingRecipientBody sesAlwaysOk (by decide)).1⟩

/-- C1 counterexample: an otherwise-valid request naming a non-existent
template is answered with status code 400, not the claimed 500. -/
theorem unknown_template_status_is_400_not_500 :
    (lambda_handler unknownTemplateBody sesAlwaysOk).statusCode = 400 ∧
      (lambda_handler unknownTemplateBody sesAlwaysOk).statusCode ≠ 500 := by
  decide

/-- C1 (amended): a valid request whose `template_name` names no existing
template is answered 400 with error "Validation error" and message
"Template '...' not found": the ValueError raised by the template lookup
is caught by the same handler branch as validation errors. -/
theorem unknown_template_answered_400_validation_error (b : RawBody)
    (ses : Nat → Except (List Char) (List Char)) (tn : List Char)
    (hm : missingRequestFields b = [])
    (ht : b.template_name = some tn)
    (hu : emailSenderTemplates.lookup tn = none) :
    lambda_handler b ses =
      ⟨400, RespBody.failure (("Validation error").data)
        ((("Template \x27").data) ++ tn ++ (("\x27 not found").data)), 0⟩ := by
  simp [lambda_handler, validate_request, hm, get_template_content, ht, hu]

/-- Witness for `unknown_template_answered_400_validation_error` at the
scenario body with template "does_not_exist". -/
theorem unknown_template_scenario :
    missingRequestFields unknownTemplateBody = [] ∧
      lambda_handler unknownTemplateBody sesAlwaysOk =
        ⟨400, RespBody.failure (("Validation error").data)
          ((("Template \x27").data) ++ (("does_not_exist").data) ++ (("\x27 not found").data)), 0⟩ :=
  ⟨by decide, unknown_template_answered_400_validation_error unknownTemplateBody sesAlwaysOk
    (("does_not_exist").data) (by decide) rfl (by decide)⟩

/-- C2 counterexample: against a provider failing every call, the handler
makes exactly one provider call, not `max_retries + 1` (= 4 with the
configured default). -/
theorem failing_provider_one_call_not_retried :
    (lambda_handler knownTemplateBody sesAlwaysFails).providerCalls = 1 ∧
      (1 : Nat) ≠ config_max_retries + 1 := by
  decide

/-- C2 (amended): when the provider fails on every call, the handler makes
exactly one provider call, performs no backoff, and is answered 500 with
error "Email sending failed"; the configured max_retries is unused. -/
theorem failing_provider_single_attempt_500 (b : RawBody)
    (ses : Nat → Except (List Char) (List Char)) (e tn body : List Char)
    (hm : missingRequestFields b = [])
    (ht : b.template_name = some tn)
    (hf : emailSenderTemplates.lookup tn = some body)
    (hses : ∀ i, ses i = Except.error e) :
    lambda_handler b ses = ⟨500, RespBody.failure (("Email sending failed").data) e, 1⟩ := by
  simp [lambda_handler, validate_request, hm, get_template_content, ht, hf, send_email, hses 0]

/-- Witness for `failing_provider_single_attempt_500` at a concrete valid
request against an always-failing provider. -/
theorem failing_provider_scenario :
    missingRequestFields knownTemplateBody = [] ∧
      lambda_handler knownTemplateBody sesAlwaysFails =
        ⟨500, RespBody.failure (("Email sending failed").data) (("Throttling").data), 1⟩ :=
  ⟨by decide, failing_provider_single_attempt_500 knownTemplateBody sesAlwaysFails
    (("Throttling").data) (("job_application").data) jobApplicationSenderHtml
    (by decide) rfl rfl (fun _ => rfl)⟩

/-- C5 counterexample: a request whose recipient_email fails the address
pattern still passes validation and is dispatched to the provider,
answered 200. -/
theorem malformed_address_still_dispatched :
    validate_email (("not-an-email").data) = false ∧
      lambda_handler invalidEmailBody sesAlwaysOk =
        ⟨200, RespBody.success (("Email sent successfully").data) (("test-message-id").data), 1⟩ := by
  decide

/-- C5 (amended): the dispatch path never inspects the contents of the
email-address fields: replacing the values of recipient_email,
sender_email, cc_emails and reply_to_emails by any other values leaves the
handler's response and provider-call count unchanged. -/
theorem handler_ignores_address_contents (b : RawBody)
    (ses : Nat → Except (List Char) (List Char)) (r r2 se se2 : List Char)
    (cc cc2 rt rt2 : List (List Char)) :
    lambda_handler
        { b with
          recipient_email := some r,
          sender_email := some se,
          cc_emails := some cc,
          reply_to_emails := some rt } ses =
      lambda_handler
        { b with
          recipient_email := some r2,
          sender_email := some se2,
          cc_emails := some cc2,
          reply_to_emails := some rt2 } ses := by
  by_cases hs : b.subject = none <;> by_cases ht : b.template_name = none <;>
    simp [lambda_handler, validate_request, missingRequestFields_eq, hs, ht]

/-- C3 counterexample: a template named after the built-in
`job_application` is accepted by save_template and stored in the backend,
rather than failing with a NameReserved error. -/
theorem builtin_name_put_accepted :
    save_template [] shadowTemplate =
        Except.ok [((("job_application").data), shadowTemplate)] ∧
      (default_templates.lookup (("job_application").data)).isSome = true := by
  decide

/-- C3 (amended): save_template never checks built-in names: a valid
template named after a built-in is accepted and written to the backend,
but get_template keeps returning the built-in for that name, since
built-ins are consulted first. -/
theorem builtin_name_put_stored_but_shadowed (store : List (List Char × TemplateDict))
    (t d : TemplateDict) (n : List Char)
    (hn : t.name = some n)
    (hm : missingTemplateFields t = [])
    (hd : default_templates.lookup n = some d) :
    save_template store t = Except.ok (upsertTemplate store n t) ∧
      get_template (upsertTemplate store n t) n = Except.ok d := by
  constructor
  · simp [save_template, hm, hn]
  · simp [get_template, hd]

/-- Witness for `builtin_name_put_stored_but_shadowed`: saving a custom
job_application succeeds, yet get_template returns the built-in. -/
theorem builtin_name_put_scenario :
    missingTemplateFields shadowTemplate = [] ∧
      get_template (upsertTemplate [] (("job_application").data) shadowTemplate)
          (("job_application").data) = Except.ok jobApplicationDefault :=
  ⟨by decide, (builtin_name_put_stored_but_shadowed [] shadowTemplate jobApplicationDefault
    (("job_application").data) rfl (by decide) rfl).2⟩

/-- C4 counterexample: a template whose name is present but equal to the
empty string is accepted by save_template, not rejected as invalid. -/
theorem empty_string_field_accepted :
    isOkE (save_template [] emptyNameTemplate) = true ∧
      emptyNameTemplate.name = some [] := by
  decide

/-- C4 (amended): save_template fails (with the ValueError listing the
missing fields) exactly when name, subject or html_content is absent from
the template dict; present-but-empty values are not rejected, and a
template with all three fields present is accepted. -/
theorem save_rejects_exactly_absent_fields (store : List (List Char × TemplateDict))
    (t : TemplateDict) :
    (∃ msg, save_template store t = Except.error msg) ↔
      (t.name = none ∨ t.subject = none ∨ t.html_content = none) := by
  rcases t with ⟨tn, ts, td, th⟩
  cases tn <;> cases ts <;> cases th <;>
    simp [save_template, missingTemplateFields_eq]
